import Mathlib

/-!
Shallow embedding of `src/jukeaudio/jukeaudio.py`, a thin async HTTP client
for the Juke Audio device REST API.

Modelling conventions:
* A JSON value is the inductive `Json`.
* The HTTP transport (aiohttp) is a black box.  One issued request either
  fails with a transport error (`ClientError`, aiohttp's exception class) or
  yields an `HttpResponse` carrying the status code together with the result
  of decoding the body as JSON (`await response.json()`, which may itself
  fail with a transport error) and as text (`await response.text()`).
* Each Python function is embedded as an `Op`: the single `Request` it
  builds (method, URL, headers, body) and a handler mapping the transport
  outcome of that request to the Python-level result, `Except PyError α`;
  `Except.error` models an exception propagating out of the function.
* Python exceptions are the inductive `PyError`.  The library's own
  exception classes live in `jukeaudio/exceptions.py`, which is not part of
  the sources; modelled from the spec: `AuthenticationException` and
  `UnexpectedException` are library-specific error kinds, distinct from the
  transport's `aiohttp.ClientError` (so a raised `AuthenticationException`
  is not caught by an `except aiohttp.ClientError` clause), and
  `UnexpectedException` chains the underlying transport error as its cause.
  Built-in Python lookup failures (`KeyError`, `IndexError`, `TypeError`,
  `AttributeError`) are likewise not transport errors.
-/

/-- JSON values as decoded by `response.json()`. -/
inductive Json where
  | null
  | bool (b : Bool)
  | num (n : Int)
  | str (s : String)
  | arr (elems : List Json)
  | obj (fields : List (String × Json))

/-- Transport-level failures raised by aiohttp (`aiohttp.ClientError`). -/
inductive ClientError where
  | connectionRefused
  | dnsFailure
  | timeout
  | connectionDropped
  | decodeFailure
deriving DecidableEq

/-- Python exceptions that can propagate out of the embedded functions. -/
inductive PyError where
  | authenticationException
  | unexpectedException (cause : ClientError)
  | keyError (key : String)
  | keyErrorNum (key : Nat)
  | indexError
  | typeError
  | attributeError
deriving DecidableEq

/-- An HTTP response: status code plus the outcomes of reading the body as
JSON and as text (each read may itself raise a transport error). -/
structure HttpResponse where
  status : Nat
  jsonBody : Except ClientError Json
  textBody : Except ClientError String

/-- Outcome of issuing one HTTP request: a transport error, or a response. -/
abbrev HttpOutcome := Except ClientError HttpResponse

/-- Body attached to a request: none, form-encoded fields, or a raw string. -/
inductive ReqBody where
  | empty
  | form (fields : List (String × Int))
  | raw (s : String)
deriving DecidableEq

/-- The single HTTP request a library function issues. -/
structure Request where
  method : String
  url : String
  headers : List (String × String)
  data : ReqBody

/-- Embedding of one library function: the request it builds and the
handler turning the transport outcome into the Python-level result. -/
structure Op (α : Type) where
  request : Request
  handle : HttpOutcome → Except PyError α

/-- Embeds the module-level constant `api_version = "v2"`. -/
def api_version : String := "v2"

/-- Embeds `create_auth_header`: base64 of the UTF-8 bytes of
`"{user_name}:{password}"`, decoded back to a string.  Base64 itself is
embedded below (`b64EncodeList`). -/
def pyBytesUtf8 (s : String) : List Nat :=
  s.toUTF8.toList.map UInt8.toNat

/-- The 64-character standard base64 alphabet used by `base64.b64encode`. -/
def b64Alphabet : List Char :=
  "ABCDEFGHIJKLMNOPQRSTUVWXYZabcdefghijklmnopqrstuvwxyz0123456789+/".data

/-- Character of a 6-bit value in the standard base64 alphabet. -/
def sextetChar (n : Nat) : Char := b64Alphabet.getD n 'A'

/-- Index of a character in the base64 alphabet, if present. -/
def sextetVal (c : Char) : Option Nat :=
  let i := b64Alphabet.findIdx (fun x => x = c)
  if i < 64 then some i else none

/-- Standard base64 encoding of a byte list (bytes as naturals below 256),
with `=` padding, as produced by `base64.b64encode`. -/
def b64EncodeList : List Nat → List Char
  | [] => []
  | [b1] =>
    [sextetChar (b1 / 4), sextetChar (b1 % 4 * 16), '=', '=']
  | [b1, b2] =>
    [sextetChar (b1 / 4), sextetChar (b1 % 4 * 16 + b2 / 16),
     sextetChar (b2 % 16 * 4), '=']
  | b1 :: b2 :: b3 :: rest =>
    sextetChar (b1 / 4) :: sextetChar (b1 % 4 * 16 + b2 / 16) ::
    sextetChar (b2 % 16 * 4 + b3 / 64) :: sextetChar (b3 % 64) ::
    b64EncodeList rest

/-- Base64 decoding of a character list back to bytes (standard alphabet,
`=` padding allowed only at the end). -/
def b64DecodeList : List Char → Option (List Nat)
  | [] => some []
  | c1 :: c2 :: c3 :: c4 :: rest =>
    match sextetVal c1, sextetVal c2 with
    | some n1, some n2 =>
      if c3 = '=' then
        if c4 = '=' ∧ rest = [] then some [n1 * 4 + n2 / 16] else none
      else
        match sextetVal c3 with
        | some n3 =>
          if c4 = '=' then
            if rest = [] then some [n1 * 4 + n2 / 16, n2 % 16 * 16 + n3 / 4]
            else none
          else
            match sextetVal c4 with
            | some n4 =>
              (b64DecodeList rest).map
                (fun ds => (n1 * 4 + n2 / 16) :: (n2 % 16 * 16 + n3 / 4) ::
                           (n3 % 4 * 64 + n4) :: ds)
            | none => none
        | none => none
    | _, _ => none
  | _ => none

/-- Embeds `create_auth_header(user_name, password)`:
`base64.b64encode(bytes(f"{user_name}:{password}", "utf-8")).decode("utf-8")`. -/
def create_auth_header (user_name password : String) : String :=
  String.mk (b64EncodeList (pyBytesUtf8 (user_name ++ ":" ++ password)))

/-- Embeds `is_juke_compatible(ver)`: `ver.startswith(f"{api_version}.")`,
Python `str.startswith` being the string-prefix test. -/
def is_juke_compatible (ver : String) : Bool :=
  (api_version ++ ".").data.isPrefixOf ver.data

/-- Embeds the Python subscript `j[key]` for a string key: field lookup on a
dict, `KeyError` when the key is missing, `TypeError` on non-dict values
(list/str indices must be integers, scalars are not subscriptable). -/
def pySubscriptStr (j : Json) (key : String) : Except PyError Json :=
  match j with
  | .obj fields =>
    match fields.lookup key with
    | some v => .ok v
    | none => .error (.keyError key)
  | _ => .error .typeError

/-- Embeds the Python subscript `j[i]` for a non-negative integer index:
list indexing (`IndexError` out of range), string indexing (one-character
string), `KeyError` on a dict whose keys are JSON strings, `TypeError`
otherwise. -/
def pySubscriptIdx (j : Json) (i : Nat) : Except PyError Json :=
  match j with
  | .arr xs =>
    match xs.get? i with
    | some v => .ok v
    | none => .error .indexError
  | .str s =>
    match s.data.get? i with
    | some c => .ok (.str (String.mk [c]))
    | none => .error .indexError
  | .obj _ => .error (.keyErrorNum i)
  | _ => .error .typeError

/-- Embeds the call `is_juke_compatible(v)` on a decoded JSON value: only a
string has the `startswith` attribute; any other value raises
`AttributeError`. -/
def pyCallJukeCompatible (v : Json) : Except PyError Bool :=
  match v with
  | .str ver => .ok (is_juke_compatible ver)
  | _ => .error .attributeError

/-- Shared handler of the authenticated GET endpoints returning JSON:
non-200 status raises `AuthenticationException`; otherwise the decoded JSON
body is returned; any `aiohttp.ClientError` (of the request or of the body
decode) is caught and re-raised as `UnexpectedException` chaining it. -/
def jsonGetHandle : HttpOutcome → Except PyError Json
  | .error e => .error (.unexpectedException e)
  | .ok r =>
    if r.status ≠ 200 then .error .authenticationException
    else
      match r.jsonBody with
      | .error e => .error (.unexpectedException e)
      | .ok contents => .ok contents

/-- Shared handler of the two PUT endpoints returning plain text, same
status and error translation as `jsonGetHandle` but reading `response.text()`. -/
def textPutHandle : HttpOutcome → Except PyError String
  | .error e => .error (.unexpectedException e)
  | .ok r =>
    if r.status ≠ 200 then .error .authenticationException
    else
      match r.textBody with
      | .error e => .error (.unexpectedException e)
      | .ok contents => .ok contents

/-- Handler of `get_available_inputs`: like `jsonGetHandle` but returning
`contents["available_types"]`; the subscript's `KeyError`/`TypeError` is not
an `aiohttp.ClientError`, so it propagates uncaught. -/
def availableInputsHandle : HttpOutcome → Except PyError Json
  | .error e => .error (.unexpectedException e)
  | .ok r =>
    if r.status ≠ 200 then .error .authenticationException
    else
      match r.jsonBody with
      | .error e => .error (.unexpectedException e)
      | .ok contents => pySubscriptStr contents "available_types"

/-- Handler of `can_connect_to_juke`: any `aiohttp.ClientError` (of the
request or the JSON decode) yields `False`; otherwise the status code is
never examined and the result is `is_juke_compatible(contents["versions"][0])`,
whose lookup errors propagate uncaught. -/
def probeHandle : HttpOutcome → Except PyError Bool
  | .error _ => .ok false
  | .ok r =>
    match r.jsonBody with
    | .error _ => .ok false
    | .ok contents =>
      match pySubscriptStr contents "versions" with
      | .error e => .error e
      | .ok vs =>
        match pySubscriptIdx vs 0 with
        | .error e => .error e
        | .ok v => pyCallJukeCompatible v

/-- Authorization header set by every authenticated function:
`{"Authorization": f"Bearer {create_auth_header(username, password)}"}`. -/
def authHeaders (username password : String) : List (String × String) :=
  [("Authorization", "Bearer " ++ create_auth_header username password)]

/-- Embeds `can_connect_to_juke(ip_address)`: unauthenticated GET on the
unversioned root path `http://{ip_address}/api/`. -/
def can_connect_to_juke (ip_address : String) : Op Bool :=
  { request :=
      { method := "GET",
        url := "http://" ++ ip_address ++ "/api/",
        headers := [],
        data := .empty },
    handle := probeHandle }

/-- Embeds `get_devices(ip_address, username, password)`. -/
def get_devices (ip_address username password : String) : Op Json :=
  { request :=
      { method := "GET",
        url := "http://" ++ ip_address ++ "/api/" ++ api_version ++ "/devices/",
        headers := authHeaders username password,
        data := .empty },
    handle := jsonGetHandle }

/-- Embeds `get_device_connection_info(ip_address, username, password, device_id)`. -/
def get_device_connection_info (ip_address username password device_id : String) : Op Json :=
  { request :=
      { method := "GET",
        url := "http://" ++ ip_address ++ "/api/" ++ api_version ++ "/devices/"
               ++ device_id ++ "/connection",
        headers := authHeaders username password,
        data := .empty },
    handle := jsonGetHandle }

/-- Embeds `get_device_attributes(ip_address, username, password, device_id)`. -/
def get_device_attributes (ip_address username password device_id : String) : Op Json :=
  { request :=
      { method := "GET",
        url := "http://" ++ ip_address ++ "/api/" ++ api_version ++ "/devices/"
               ++ device_id ++ "/attributes",
        headers := authHeaders username password,
        data := .empty },
    handle := jsonGetHandle }

/-- Embeds `get_device_config(ip_address, username, password, device_id)`. -/
def get_device_config (ip_address username password device_id : String) : Op Json :=
  { request :=
      { method := "GET",
        url := "http://" ++ ip_address ++ "/api/" ++ api_version ++ "/devices/"
               ++ device_id ++ "/config",
        headers := authHeaders username password,
        data := .empty },
    handle := jsonGetHandle }

/-- Embeds `get_device_metrics(ip_address, username, password, device_id)`. -/
def get_device_metrics (ip_address username password device_id : String) : Op Json :=
  { request :=
      { method := "GET",
        url := "http://" ++ ip_address ++ "/api/" ++ api_version ++ "/devices/"
               ++ device_id ++ "/metrics",
        headers := authHeaders username password,
        data := .empty },
    handle := jsonGetHandle }

/-- Embeds `get_zones(ip_address, username, password)`. -/
def get_zones (ip_address username password : String) : Op Json :=
  { request :=
      { method := "GET",
        url := "http://" ++ ip_address ++ "/api/" ++ api_version ++ "/zones",
        headers := authHeaders username password,
        data := .empty },
    handle := jsonGetHandle }

/-- Embeds `get_zone_config(ip_address, username, password, zone_id)`. -/
def get_zone_config (ip_address username password zone_id : String) : Op Json :=
  { request :=
      { method := "GET",
        url := "http://" ++ ip_address ++ "/api/" ++ api_version ++ "/zones/"
               ++ zone_id,
        headers := authHeaders username password,
        data := .empty },
    handle := jsonGetHandle }

/-- Embeds `set_zone_volume(ip_address, username, password, zone_id, volume)`:
PUT with the form payload `data = {"volume": volume}`, returning the
response text. -/
def set_zone_volume (ip_address username password zone_id : String)
    (volume : Int) : Op String :=
  { request :=
      { method := "PUT",
        url := "http://" ++ ip_address ++ "/api/" ++ api_version ++ "/zones/"
               ++ zone_id ++ "/volume",
        headers := authHeaders username password,
        data := .form [("volume", volume)] },
    handle := textPutHandle }

/-- Embeds `set_zone_input(ip_address, username, password, zone_id, input)`:
the body is the literal string `"[]"`, replaced by `f"[\"{input}\"]"` when
`input` is not `None` and `len(input) > 0`; the Python `input: str`
argument may be `None`, hence `Option String`. -/
def set_zone_input (ip_address username password zone_id : String)
    (input : Option String) : Op String :=
  { request :=
      { method := "PUT",
        url := "http://" ++ ip_address ++ "/api/" ++ api_version ++ "/zones/"
               ++ zone_id ++ "/input",
        headers := authHeaders username password,
        data := .raw
          (match input with
           | none => "[]"
           | some s => if s.length > 0 then "[\"" ++ s ++ "\"]" else "[]") },
    handle := textPutHandle }

/-- Embeds `get_inputs(ip_address, username, password)`. -/
def get_inputs (ip_address username password : String) : Op Json :=
  { request :=
      { method := "GET",
        url := "http://" ++ ip_address ++ "/api/" ++ api_version ++ "/inputs",
        headers := authHeaders username password,
        data := .empty },
    handle := jsonGetHandle }

/-- Embeds `get_input_config(ip_address, username, password, input_id)`. -/
def get_input_config (ip_address username password input_id : String) : Op Json :=
  { request :=
      { method := "GET",
        url := "http://" ++ ip_address ++ "/api/" ++ api_version ++ "/inputs/"
               ++ input_id,
        headers := authHeaders username password,
        data := .empty },
    handle := jsonGetHandle }

/-- Embeds `get_available_inputs(ip_address, username, password, input_id)`. -/
def get_available_inputs (ip_address username password input_id : String) : Op Json :=
  { request :=
      { method := "GET",
        url := "http://" ++ ip_address ++ "/api/" ++ api_version ++ "/inputs/"
               ++ input_id ++ "/available-types",
        headers := authHeaders username password,
        data := .empty },
    handle := availableInputsHandle }

/-- Whitespace characters allowed between JSON tokens (RFC 8259). -/
def isJsonWs (c : Char) : Bool :=
  c = ' ' || c = '\t' || c = '\n' || c = '\r'

/-- Drops leading JSON whitespace. -/
def skipWs (l : List Char) : List Char := l.dropWhile isJsonWs

/-- Single-character JSON string escapes and their denoted characters. -/
def jsonUnescape (c : Char) : Option Char :=
  if c = '"' then some '"'
  else if c = '\\' then some '\\'
  else if c = '/' then some '/'
  else if c = 'b' then some (Char.ofNat 8)
  else if c = 'f' then some (Char.ofNat 12)
  else if c = 'n' then some (Char.ofNat 10)
  else if c = 'r' then some (Char.ofNat 13)
  else if c = 't' then some (Char.ofNat 9)
  else none

/-- Hexadecimal digit test for the `\u` escape. -/
def isHexDigitChar (c : Char) : Bool :=
  ('0' ≤ c && c ≤ '9') || ('a' ≤ c && c ≤ 'f') || ('A' ≤ c && c ≤ 'F')

/-- Value of a hexadecimal digit. -/
def hexDigitVal (c : Char) : Nat :=
  if '0' ≤ c && c ≤ '9' then c.toNat - 48
  else if 'a' ≤ c && c ≤ 'f' then c.toNat - 87
  else c.toNat - 55

/-- Parses the tail of a JSON string literal (the characters after the
opening quote): returns the denoted character content and the remainder
after the closing quote, or `none` when malformed (RFC 8259 grammar:
unescaped `"` terminates, `\` starts an escape, control characters below
U+0020 must be escaped). -/
def parseJsonString : List Char → Option (List Char × List Char)
  | [] => none
  | c :: rest =>
    if c = '"' then some ([], rest)
    else if c = '\\' then
      match rest with
      | [] => none
      | e :: rest2 =>
        if e = 'u' then
          match rest2 with
          | h1 :: h2 :: h3 :: h4 :: rest3 =>
            if isHexDigitChar h1 && isHexDigitChar h2 &&
               isHexDigitChar h3 && isHexDigitChar h4 then
              match parseJsonString rest3 with
              | some (content, rem) =>
                some (Char.ofNat (((hexDigitVal h1 * 16 + hexDigitVal h2) * 16
                        + hexDigitVal h3) * 16 + hexDigitVal h4) :: content, rem)
              | none => none
            else none
          | _ => none
        else
          match jsonUnescape e with
          | some d =>
            match parseJsonString rest2 with
            | some (content, rem) => some (d :: content, rem)
            | none => none
          | none => none
    else if 32 ≤ c.toNat then
      match parseJsonString rest with
      | some (content, rem) => some (c :: content, rem)
      | none => none
    else none

/-- Decides whether a request body is a well-formed JSON array containing
exactly one string element, returning that element's denoted content. -/
def parseStringArray1 (body : String) : Option String :=
  match skipWs body.data with
  | [] => none
  | c0 :: r1 =>
    if c0 = '[' then
      match skipWs r1 with
      | [] => none
      | c1 :: r2 =>
        if c1 = '"' then
          match parseJsonString r2 with
          | some (content, r3) =>
            match skipWs r3 with
            | [] => none
            | c2 :: r4 =>
              if c2 = ']' ∧ skipWs r4 = [] then some (String.mk content) else none
          | none => none
        else none
    else none

/-- Holds when a Python-level result either succeeded or failed with one of
the two library error kinds (`AuthenticationException`, or
`UnexpectedException` chaining a transport error). -/
def errsOnlyLibrary {α : Type} : Except PyError α → Bool
  | .ok _ => true
  | .error .authenticationException => true
  | .error (.unexpectedException _) => true
  | .error _ => false

/-- Holds when a result succeeded, failed with a library error kind, or
failed with a field-access error (`KeyError` on a string key / `TypeError`). -/
def errsLibraryOrLookup {α : Type} : Except PyError α → Bool
  | .ok _ => true
  | .error .authenticationException => true
  | .error (.unexpectedException _) => true
  | .error (.keyError _) => true
  | .error .typeError => true
  | .error _ => false

theorem sextetVal_sextetChar {n : Nat} (h : n < 64) : sextetVal (sextetChar n) = some n :=
  (by decide : ∀ m ∈ List.range 64, sextetVal (sextetChar m) = some m) n (List.mem_range.mpr h)

theorem sextetChar_ne_pad {n : Nat} (h : n < 64) : sextetChar n ≠ '=' :=
  (by decide : ∀ m ∈ List.range 64, sextetChar m ≠ '=') n (List.mem_range.mpr h)

theorem b64_roundtrip (bs : List Nat) (h : ∀ b ∈ bs, b < 256) :
    b64DecodeList (b64EncodeList bs) = some bs := by
  induction bs using b64EncodeList.induct with
  | case1 => rfl
  | case2 b1 =>
    have hb1 : b1 < 256 := h b1 (by simp)
    have e1 : b1 / 4 * 4 + b1 % 4 * 16 / 16 = b1 := by omega
    simp only [b64EncodeList, b64DecodeList,
      sextetVal_sextetChar (show b1 / 4 < 64 by omega),
      sextetVal_sextetChar (show b1 % 4 * 16 < 64 by omega)]
    simp only [and_self, if_true, ite_true, e1]
  | case3 b1 b2 =>
    have hb1 : b1 < 256 := h b1 (by simp)
    have hb2 : b2 < 256 := h b2 (by simp)
    have e1 : b1 / 4 * 4 + (b1 % 4 * 16 + b2 / 16) / 16 = b1 := by omega
    have e2 : (b1 % 4 * 16 + b2 / 16) % 16 * 16 + b2 % 16 * 4 / 4 = b2 := by omega
    simp only [b64EncodeList, b64DecodeList,
      sextetVal_sextetChar (show b1 / 4 < 64 by omega),
      sextetVal_sextetChar (show b1 % 4 * 16 + b2 / 16 < 64 by omega),
      sextetVal_sextetChar (show b2 % 16 * 4 < 64 by omega)]
    rw [if_neg (sextetChar_ne_pad (show b2 % 16 * 4 < 64 by omega))]
    simp only [if_true, ite_true, e1, e2]
  | case4 b1 b2 b3 rest ih =>
    have hb1 : b1 < 256 := h b1 (by simp)
    have hb2 : b2 < 256 := h b2 (by simp)
    have hb3 : b3 < 256 := h b3 (by simp)
    have hrest : ∀ b ∈ rest, b < 256 := fun b hb => h b (by simp [hb])
    have e1 : b1 / 4 * 4 + (b1 % 4 * 16 + b2 / 16) / 16 = b1 := by omega
    have e2 : (b1 % 4 * 16 + b2 / 16) % 16 * 16 + (b2 % 16 * 4 + b3 / 64) / 4 = b2 := by omega
    have e3 : (b2 % 16 * 4 + b3 / 64) % 4 * 64 + b3 % 64 = b3 := by omega
    simp only [b64EncodeList, b64DecodeList,
      sextetVal_sextetChar (show b1 / 4 < 64 by omega),
      sextetVal_sextetChar (show b1 % 4 * 16 + b2 / 16 < 64 by omega),
      sextetVal_sextetChar (show b2 % 16 * 4 + b3 / 64 < 64 by omega),
      sextetVal_sextetChar (show b3 % 64 < 64 by omega)]
    rw [if_neg (sextetChar_ne_pad (show b2 % 16 * 4 + b3 / 64 < 64 by omega)),
        if_neg (sextetChar_ne_pad (show b3 % 64 < 64 by omega)), ih hrest]
    simp only [Option.map_some', e1, e2, e3]

theorem pyBytesUtf8_lt (s : String) : ∀ b ∈ pyBytesUtf8 s, b < 256 := by
  intro b hb
  simp only [pyBytesUtf8, List.mem_map] at hb
  obtain ⟨u, _, rfl⟩ := hb
  exact u.toNat_lt
/-- Claim C5: for all credential strings u and p, the auth token computed by
`create_auth_header(u, p)` equals the base64 encoding of the UTF-8 bytes of
the literal string `u ++ ":" ++ p`, base64-decoding that token recovers
exactly those bytes (round-trip), and the token is recomputed from the
credentials on each call and sent as a Bearer value in the Authorization
header of every authenticated request (shown here for `get_devices`). -/
theorem C5_auth_token_base64 (u p ip : String) :
    (create_auth_header u p).data = b64EncodeList (pyBytesUtf8 (u ++ ":" ++ p)) ∧
    b64DecodeList (create_auth_header u p).data = some (pyBytesUtf8 (u ++ ":" ++ p)) ∧
    (get_devices ip u p).request.headers =
      [("Authorization", "Bearer " ++ create_auth_header u p)] := by
  refine ⟨rfl, ?_, rfl⟩
  exact b64_roundtrip _ (pyBytesUtf8_lt _)

/-- Claim C6: `is_juke_compatible ver` is true exactly when `ver` starts
with the literal prefix "v2." (trailing dot required); in particular it is
true at "v2.3" and false at "v1.9" and at "v2". -/
theorem C6_is_juke_compatible_prefix :
    (∀ ver : String, is_juke_compatible ver = true ↔ "v2.".data <+: ver.data) ∧
    is_juke_compatible "v2.3" = true ∧
    is_juke_compatible "v1.9" = false ∧
    is_juke_compatible "v2" = false := by
  refine ⟨fun ver => ?_, by decide, by decide, by decide⟩
  have h : (api_version ++ "." : String) = "v2." := rfl
  rw [is_juke_compatible, h, List.isPrefixOf_iff_prefix]
theorem jsonGetHandle_non200 (r : HttpResponse) (h : r.status ≠ 200) :
    jsonGetHandle (.ok r) = .error .authenticationException := by
  simp [jsonGetHandle, h]

theorem textPutHandle_non200 (r : HttpResponse) (h : r.status ≠ 200) :
    textPutHandle (.ok r) = .error .authenticationException := by
  simp [textPutHandle, h]

theorem availableInputsHandle_non200 (r : HttpResponse) (h : r.status ≠ 200) :
    availableInputsHandle (.ok r) = .error .authenticationException := by
  simp [availableInputsHandle, h]

/-- Claim C1: every authenticated operation, on an HTTP response whose
status code is anything other than 200, fails with the library's
AuthenticationError; the status code is not inspected any further, so every
4xx or 5xx is treated identically. -/
theorem C1_non200_authentication (r : HttpResponse) (h : r.status ≠ 200)
    (ip u p did zid iid : String) (vol : Int) (inp : Option String) :
    (get_devices ip u p).handle (.ok r) = .error .authenticationException ∧
    (get_device_connection_info ip u p did).handle (.ok r) = .error .authenticationException ∧
    (get_device_attributes ip u p did).handle (.ok r) = .error .authenticationException ∧
    (get_device_config ip u p did).handle (.ok r) = .error .authenticationException ∧
    (get_device_metrics ip u p did).handle (.ok r) = .error .authenticationException ∧
    (get_zones ip u p).handle (.ok r) = .error .authenticationException ∧
    (get_zone_config ip u p zid).handle (.ok r) = .error .authenticationException ∧
    (set_zone_volume ip u p zid vol).handle (.ok r) = .error .authenticationException ∧
    (set_zone_input ip u p zid inp).handle (.ok r) = .error .authenticationException ∧
    (get_inputs ip u p).handle (.ok r) = .error .authenticationException ∧
    (get_input_config ip u p iid).handle (.ok r) = .error .authenticationException ∧
    (get_available_inputs ip u p iid).handle (.ok r) = .error .authenticationException :=
  ⟨jsonGetHandle_non200 r h, jsonGetHandle_non200 r h, jsonGetHandle_non200 r h,
   jsonGetHandle_non200 r h, jsonGetHandle_non200 r h, jsonGetHandle_non200 r h,
   jsonGetHandle_non200 r h, textPutHandle_non200 r h, textPutHandle_non200 r h,
   jsonGetHandle_non200 r h, jsonGetHandle_non200 r h, availableInputsHandle_non200 r h⟩

/-- Witness of C1 at a concrete 401 response. -/
theorem C1_witness :
    (get_devices "192.168.0.9" "user" "pass").handle
        (.ok ⟨401, .ok .null, .ok ""⟩) = .error .authenticationException ∧
    (get_device_connection_info "192.168.0.9" "user" "pass" "d1").handle
        (.ok ⟨401, .ok .null, .ok ""⟩) = .error .authenticationException ∧
    (get_device_attributes "192.168.0.9" "user" "pass" "d1").handle
        (.ok ⟨401, .ok .null, .ok ""⟩) = .error .authenticationException ∧
    (get_device_config "192.168.0.9" "user" "pass" "d1").handle
        (.ok ⟨401, .ok .null, .ok ""⟩) = .error .authenticationException ∧
    (get_device_metrics "192.168.0.9" "user" "pass" "d1").handle
        (.ok ⟨401, .ok .null, .ok ""⟩) = .error .authenticationException ∧
    (get_zones "192.168.0.9" "user" "pass").handle
        (.ok ⟨401, .ok .null, .ok ""⟩) = .error .authenticationException ∧
    (get_zone_config "192.168.0.9" "user" "pass" "z1").handle
        (.ok ⟨401, .ok .null, .ok ""⟩) = .error .authenticationException ∧
    (set_zone_volume "192.168.0.9" "user" "pass" "z1" 20).handle
        (.ok ⟨401, .ok .null, .ok ""⟩) = .error .authenticationException ∧
    (set_zone_input "192.168.0.9" "user" "pass" "z1" (some "aux")).handle
        (.ok ⟨401, .ok .null, .ok ""⟩) = .error .authenticationException ∧
    (get_inputs "192.168.0.9" "user" "pass").handle
        (.ok ⟨401, .ok .null, .ok ""⟩) = .error .authenticationException ∧
    (get_input_config "192.168.0.9" "user" "pass" "i1").handle
        (.ok ⟨401, .ok .null, .ok ""⟩) = .error .authenticationException ∧
    (get_available_inputs "192.168.0.9" "user" "pass" "i1").handle
        (.ok ⟨401, .ok .null, .ok ""⟩) = .error .authenticationException :=
  C1_non200_authentication ⟨401, .ok .null, .ok ""⟩ (by decide)
    "192.168.0.9" "user" "pass" "d1" "z1" "i1" 20 (some "aux")
theorem jsonGetHandle_request_err (e : ClientError) :
    jsonGetHandle (.error e) = .error (.unexpectedException e) := rfl

theorem textPutHandle_request_err (e : ClientError) :
    textPutHandle (.error e) = .error (.unexpectedException e) := rfl

theorem availableInputsHandle_request_err (e : ClientError) :
    availableInputsHandle (.error e) = .error (.unexpectedException e) := rfl

theorem jsonGetHandle_decode_err (r : HttpResponse) (e : ClientError)
    (h : r.status = 200) (hj : r.jsonBody = .error e) :
    jsonGetHandle (.ok r) = .error (.unexpectedException e) := by
  simp [jsonGetHandle, h, hj]

theorem textPutHandle_decode_err (r : HttpResponse) (e : ClientError)
    (h : r.status = 200) (ht : r.textBody = .error e) :
    textPutHandle (.ok r) = .error (.unexpectedException e) := by
  simp [textPutHandle, h, ht]

theorem availableInputsHandle_decode_err (r : HttpResponse) (e : ClientError)
    (h : r.status = 200) (hj : r.jsonBody = .error e) :
    availableInputsHandle (.ok r) = .error (.unexpectedException e) := by
  simp [availableInputsHandle, h, hj]

/-- Claim C3: for every authenticated operation, a transport-level failure
of the request itself fails the operation with UnexpectedError chaining
exactly the underlying transport error, and so does a transport failure
while reading/decoding the 200 response body. -/
theorem C3_transport_unexpected (e : ClientError) (r : HttpResponse)
    (h200 : r.status = 200) (ej et : ClientError)
    (hj : r.jsonBody = .error ej) (ht : r.textBody = .error et)
    (ip u p did zid iid : String) (vol : Int) (inp : Option String) :
    ((get_devices ip u p).handle (.error e) = .error (.unexpectedException e) ∧
     (get_devices ip u p).handle (.ok r) = .error (.unexpectedException ej)) ∧
    ((get_device_connection_info ip u p did).handle (.error e) = .error (.unexpectedException e) ∧
     (get_device_connection_info ip u p did).handle (.ok r) = .error (.unexpectedException ej)) ∧
    ((get_device_attributes ip u p did).handle (.error e) = .error (.unexpectedException e) ∧
     (get_device_attributes ip u p did).handle (.ok r) = .error (.unexpectedException ej)) ∧
    ((get_device_config ip u p did).handle (.error e) = .error (.unexpectedException e) ∧
     (get_device_config ip u p did).handle (.ok r) = .error (.unexpectedException ej)) ∧
    ((get_device_metrics ip u p did).handle (.error e) = .error (.unexpectedException e) ∧
     (get_device_metrics ip u p did).handle (.ok r) = .error (.unexpectedException ej)) ∧
    ((get_zones ip u p).handle (.error e) = .error (.unexpectedException e) ∧
     (get_zones ip u p).handle (.ok r) = .error (.unexpectedException ej)) ∧
    ((get_zone_config ip u p zid).handle (.error e) = .error (.unexpectedException e) ∧
     (get_zone_config ip u p zid).handle (.ok r) = .error (.unexpectedException ej)) ∧
    ((set_zone_volume ip u p zid vol).handle (.error e) = .error (.unexpectedException e) ∧
     (set_zone_volume ip u p zid vol).handle (.ok r) = .error (.unexpectedException et)) ∧
    ((set_zone_input ip u p zid inp).handle (.error e) = .error (.unexpectedException e) ∧
     (set_zone_input ip u p zid inp).handle (.ok r) = .error (.unexpectedException et)) ∧
    ((get_inputs ip u p).handle (.error e) = .error (.unexpectedException e) ∧
     (get_inputs ip u p).handle (.ok r) = .error (.unexpectedException ej)) ∧
    ((get_input_config ip u p iid).handle (.error e) = .error (.unexpectedException e) ∧
     (get_input_config ip u p iid).handle (.ok r) = .error (.unexpectedException ej)) ∧
    ((get_available_inputs ip u p iid).handle (.error e) = .error (.unexpectedException e) ∧
     (get_available_inputs ip u p iid).handle (.ok r) = .error (.unexpectedException ej)) :=
  ⟨⟨jsonGetHandle_request_err e, jsonGetHandle_decode_err r ej h200 hj⟩,
   ⟨jsonGetHandle_request_err e, jsonGetHandle_decode_err r ej h200 hj⟩,
   ⟨jsonGetHandle_request_err e, jsonGetHandle_decode_err r ej h200 hj⟩,
   ⟨jsonGetHandle_request_err e, jsonGetHandle_decode_err r ej h200 hj⟩,
   ⟨jsonGetHandle_request_err e, jsonGetHandle_decode_err r ej h200 hj⟩,
   ⟨jsonGetHandle_request_err e, jsonGetHandle_decode_err r ej h200 hj⟩,
   ⟨jsonGetHandle_request_err e, jsonGetHandle_decode_err r ej h200 hj⟩,
   ⟨textPutHandle_request_err e, textPutHandle_decode_err r et h200 ht⟩,
   ⟨textPutHandle_request_err e, textPutHandle_decode_err r et h200 ht⟩,
   ⟨jsonGetHandle_request_err e, jsonGetHandle_decode_err r ej h200 hj⟩,
   ⟨jsonGetHandle_request_err e, jsonGetHandle_decode_err r ej h200 hj⟩,
   ⟨availableInputsHandle_request_err e, availableInputsHandle_decode_err r ej h200 hj⟩⟩

/-- Witness of C3 at a refused connection and at a 200 response whose body
reads fail. -/
theorem C3_witness :
    ((get_devices "10.0.0.2" "u" "p").handle (.error .connectionRefused)
        = .error (.unexpectedException .connectionRefused) ∧
     (get_devices "10.0.0.2" "u" "p").handle
        (.ok ⟨200, .error .decodeFailure, .error .connectionDropped⟩)
        = .error (.unexpectedException .decodeFailure)) ∧
    ((get_device_connection_info "10.0.0.2" "u" "p" "d2").handle (.error .connectionRefused)
        = .error (.unexpectedException .connectionRefused) ∧
     (get_device_connection_info "10.0.0.2" "u" "p" "d2").handle
        (.ok ⟨200, .error .decodeFailure, .error .connectionDropped⟩)
        = .error (.unexpectedException .decodeFailure)) ∧
    ((get_device_attributes "10.0.0.2" "u" "p" "d2").handle (.error .connectionRefused)
        = .error (.unexpectedException .connectionRefused) ∧
     (get_device_attributes "10.0.0.2" "u" "p" "d2").handle
        (.ok ⟨200, .error .decodeFailure, .error .connectionDropped⟩)
        = .error (.unexpectedException .decodeFailure)) ∧
    ((get_device_config "10.0.0.2" "u" "p" "d2").handle (.error .connectionRefused)
        = .error (.unexpectedException .connectionRefused) ∧
     (get_device_config "10.0.0.2" "u" "p" "d2").handle
        (.ok ⟨200, .error .decodeFailure, .error .connectionDropped⟩)
        = .error (.unexpectedException .decodeFailure)) ∧
    ((get_device_metrics "10.0.0.2" "u" "p" "d2").handle (.error .connectionRefused)
        = .error (.unexpectedException .connectionRefused) ∧
     (get_device_metrics "10.0.0.2" "u" "p" "d2").handle
        (.ok ⟨200, .error .decodeFailure, .error .connectionDropped⟩)
        = .error (.unexpectedException .decodeFailure)) ∧
    ((get_zones "10.0.0.2" "u" "p").handle (.error .connectionRefused)
        = .error (.unexpectedException .connectionRefused) ∧
     (get_zones "10.0.0.2" "u" "p").handle
        (.ok ⟨200, .error .decodeFailure, .error .connectionDropped⟩)
        = .error (.unexpectedException .decodeFailure)) ∧
    ((get_zone_config "10.0.0.2" "u" "p" "z2").handle (.error .connectionRefused)
        = .error (.unexpectedException .connectionRefused) ∧
     (get_zone_config "10.0.0.2" "u" "p" "z2").handle
        (.ok ⟨200, .error .decodeFailure, .error .connectionDropped⟩)
        = .error (.unexpectedException .decodeFailure)) ∧
    ((set_zone_volume "10.0.0.2" "u" "p" "z2" 55).handle (.error .connectionRefused)
        = .error (.unexpectedException .connectionRefused) ∧
     (set_zone_volume "10.0.0.2" "u" "p" "z2" 55).handle
        (.ok ⟨200, .error .decodeFailure, .error .connectionDropped⟩)
        = .error (.unexpectedException .connectionDropped)) ∧
    ((set_zone_input "10.0.0.2" "u" "p" "z2" none).handle (.error .connectionRefused)
        = .error (.unexpectedException .connectionRefused) ∧
     (set_zone_input "10.0.0.2" "u" "p" "z2" none).handle
        (.ok ⟨200, .error .decodeFailure, .error .connectionDropped⟩)
        = .error (.unexpectedException .connectionDropped)) ∧
    ((get_inputs "10.0.0.2" "u" "p").handle (.error .connectionRefused)
        = .error (.unexpectedException .connectionRefused) ∧
     (get_inputs "10.0.0.2" "u" "p").handle
        (.ok ⟨200, .error .decodeFailure, .error .connectionDropped⟩)
        = .error (.unexpectedException .decodeFailure)) ∧
    ((get_input_config "10.0.0.2" "u" "p" "i2").handle (.error .connectionRefused)
        = .error (.unexpectedException .connectionRefused) ∧
     (get_input_config "10.0.0.2" "u" "p" "i2").handle
        (.ok ⟨200, .error .decodeFailure, .error .connectionDropped⟩)
        = .error (.unexpectedException .decodeFailure)) ∧
    ((get_available_inputs "10.0.0.2" "u" "p" "i2").handle (.error .connectionRefused)
        = .error (.unexpectedException .connectionRefused) ∧
     (get_available_inputs "10.0.0.2" "u" "p" "i2").handle
        (.ok ⟨200, .error .decodeFailure, .error .connectionDropped⟩)
        = .error (.unexpectedException .decodeFailure)) :=
  C3_transport_unexpected .connectionRefused
    ⟨200, .error .decodeFailure, .error .connectionDropped⟩ rfl
    .decodeFailure .connectionDropped rfl rfl
    "10.0.0.2" "u" "p" "d2" "z2" "i2" 55 none
theorem jsonGetHandle_only_library (o : HttpOutcome) :
    errsOnlyLibrary (jsonGetHandle o) = true := by
  rcases o with e | r
  · rfl
  · simp only [jsonGetHandle]
    split
    · rfl
    · rcases hj : r.jsonBody with e | c <;> simp [hj, errsOnlyLibrary]

theorem textPutHandle_only_library (o : HttpOutcome) :
    errsOnlyLibrary (textPutHandle o) = true := by
  rcases o with e | r
  · rfl
  · simp only [textPutHandle]
    split
    · rfl
    · rcases ht : r.textBody with e | c <;> simp [ht, errsOnlyLibrary]

theorem pySubscriptStr_library_or_lookup (j : Json) (key : String) :
    errsLibraryOrLookup (pySubscriptStr j key) = true := by
  rcases j with _ | b | n | s | xs | fields <;> simp [pySubscriptStr, errsLibraryOrLookup]
  rcases h : fields.lookup key with _ | v <;> simp [h, errsLibraryOrLookup]

theorem availableInputsHandle_library_or_lookup (o : HttpOutcome) :
    errsLibraryOrLookup (availableInputsHandle o) = true := by
  rcases o with e | r
  · rfl
  · simp only [availableInputsHandle]
    split
    · rfl
    · rcases hj : r.jsonBody with e | c
      · simp [hj, errsLibraryOrLookup]
      · simp [hj, pySubscriptStr_library_or_lookup]

/-- Counterexample to claim C4: a 200 response whose JSON body is an object
without the "available_types" field makes `get_available_inputs` propagate
a KeyError, which is neither AuthenticationError nor UnexpectedError. -/
theorem C4_counterexample :
    (get_available_inputs "10.0.0.7" "admin" "pw" "in1").handle
        (.ok ⟨200, .ok (.obj []), .ok ""⟩) = .error (.keyError "available_types") ∧
    errsOnlyLibrary ((get_available_inputs "10.0.0.7" "admin" "pw" "in1").handle
        (.ok ⟨200, .ok (.obj []), .ok ""⟩)) = false :=
  ⟨rfl, rfl⟩

/-- Claim C4 as amended: for eleven of the twelve authenticated operations,
every possible outcome either succeeds or fails with one of the two library
error kinds; `get_available_inputs` may additionally propagate the built-in
KeyError/TypeError arising from `contents["available_types"]` on a 200 body
lacking the field or not an object.  No error is caught and retried
internally (each embedded operation issues a single request). -/
theorem C4_error_kinds_amended (ip u p did zid iid : String) (vol : Int)
    (inp : Option String) (o : HttpOutcome) :
    errsOnlyLibrary ((get_devices ip u p).handle o) = true ∧
    errsOnlyLibrary ((get_device_connection_info ip u p did).handle o) = true ∧
    errsOnlyLibrary ((get_device_attributes ip u p did).handle o) = true ∧
    errsOnlyLibrary ((get_device_config ip u p did).handle o) = true ∧
    errsOnlyLibrary ((get_device_metrics ip u p did).handle o) = true ∧
    errsOnlyLibrary ((get_zones ip u p).handle o) = true ∧
    errsOnlyLibrary ((get_zone_config ip u p zid).handle o) = true ∧
    errsOnlyLibrary ((set_zone_volume ip u p zid vol).handle o) = true ∧
    errsOnlyLibrary ((set_zone_input ip u p zid inp).handle o) = true ∧
    errsOnlyLibrary ((get_inputs ip u p).handle o) = true ∧
    errsOnlyLibrary ((get_input_config ip u p iid).handle o) = true ∧
    errsLibraryOrLookup ((get_available_inputs ip u p iid).handle o) = true :=
  ⟨jsonGetHandle_only_library o, jsonGetHandle_only_library o,
   jsonGetHandle_only_library o, jsonGetHandle_only_library o,
   jsonGetHandle_only_library o, jsonGetHandle_only_library o,
   jsonGetHandle_only_library o, textPutHandle_only_library o,
   textPutHandle_only_library o, jsonGetHandle_only_library o,
   jsonGetHandle_only_library o, availableInputsHandle_library_or_lookup o⟩
/-- Counterexample to claim C2: on a successful response whose JSON body is
an object without a "versions" field, `can_connect_to_juke` does raise (a
KeyError propagates) instead of returning a boolean. -/
theorem C2_counterexample :
    (can_connect_to_juke "192.168.1.2").handle (.ok ⟨200, .ok (.obj []), .ok ""⟩)
      = .error (.keyError "versions") :=
  rfl

/-- Claim C2 as amended: `can_connect_to_juke` returns false (without
raising) on any transport failure of the request or of the JSON decode, and
on any response whose JSON body is an object whose "versions" field is an
array with a string first element it returns true iff that first version
string starts with "v2."; a 200 body lacking that shape instead propagates
a lookup error (see the counterexample). -/
theorem C2_probe_amended (ip : String) :
    (∀ e : ClientError, (can_connect_to_juke ip).handle (.error e) = .ok false) ∧
    (∀ (status : Nat) (e : ClientError) (tb : Except ClientError String),
      (can_connect_to_juke ip).handle (.ok ⟨status, .error e, tb⟩) = .ok false) ∧
    (∀ (status : Nat) (fields : List (String × Json)) (ver : String)
       (rest : List Json) (tb : Except ClientError String),
      fields.lookup "versions" = some (.arr (.str ver :: rest)) →
      (can_connect_to_juke ip).handle (.ok ⟨status, .ok (.obj fields), tb⟩)
        = .ok ("v2.".data.isPrefixOf ver.data)) := by
  refine ⟨fun e => rfl, fun status e tb => rfl, fun status fields ver rest tb h => ?_⟩
  simp [can_connect_to_juke, probeHandle, pySubscriptStr, pySubscriptIdx,
    pyCallJukeCompatible, h, is_juke_compatible]
  rw [show api_version.data ++ ['.'] = ['v', '2', '.'] from by decide]

/-- Witness of C2 as amended: a compatible versions body yields true even
with status 200, and a refused connection yields false. -/
theorem C2_witness :
    (can_connect_to_juke "10.0.0.5").handle
        (.ok ⟨200, .ok (.obj [("versions", .arr [.str "v2.1"])]), .ok ""⟩)
      = .ok ("v2.".data.isPrefixOf "v2.1".data) ∧
    (can_connect_to_juke "10.0.0.5").handle (.error .connectionRefused) = .ok false :=
  ⟨(C2_probe_amended "10.0.0.5").2.2 200 [("versions", .arr [.str "v2.1"])] "v2.1" [] (.ok "") rfl,
   (C2_probe_amended "10.0.0.5").1 .connectionRefused⟩

/-- Claim C10: the connectivity probe never examines the HTTP status code:
handling a response depends only on its JSON body, and for every response
whose body is an object whose "versions" field is a non-empty array with a
string first element, it returns the compatibility result of that first
version string whatever the status code (200, 4xx or 5xx alike). -/
theorem C10_probe_ignores_status (ip : String) :
    (∀ (s1 s2 : Nat) (jb : Except ClientError Json)
       (tb1 tb2 : Except ClientError String),
      (can_connect_to_juke ip).handle (.ok ⟨s1, jb, tb1⟩)
        = (can_connect_to_juke ip).handle (.ok ⟨s2, jb, tb2⟩)) ∧
    (∀ (status : Nat) (fields : List (String × Json)) (ver : String)
       (rest : List Json) (tb : Except ClientError String),
      fields.lookup "versions" = some (.arr (.str ver :: rest)) →
      (can_connect_to_juke ip).handle (.ok ⟨status, .ok (.obj fields), tb⟩)
        = .ok (is_juke_compatible ver)) := by
  constructor
  · intro s1 s2 jb tb1 tb2
    rcases jb with e | c <;> rfl
  · intro status fields ver rest tb h
    simp [can_connect_to_juke, probeHandle, pySubscriptStr, pySubscriptIdx,
      pyCallJukeCompatible, h]

/-- Witness of C10: the same compatible body gives the same (true) answer
at status 200 and at status 503. -/
theorem C10_witness :
    (can_connect_to_juke "10.1.1.1").handle
        (.ok ⟨503, .ok (.obj [("versions", .arr [.str "v2.1"])]), .ok ""⟩)
      = .ok (is_juke_compatible "v2.1") :=
  (C10_probe_ignores_status "10.1.1.1").2 503 [("versions", .arr [.str "v2.1"])]
    "v2.1" [] (.ok "") rfl
theorem parseJsonString_clean (cs rest : List Char)
    (h : ∀ c ∈ cs, c ≠ '"' ∧ c ≠ '\\' ∧ 32 ≤ c.toNat) :
    parseJsonString (cs ++ '"' :: rest) = some (cs, rest) := by
  induction cs with
  | nil =>
    rw [parseJsonString.eq_def]
    simp
  | cons c cs ih =>
    obtain ⟨h1, h2, h3⟩ := h c (by simp)
    rw [List.cons_append, parseJsonString.eq_def]
    simp [h1, h2, h3, ih (fun x hx => h x (by simp [hx]))]

theorem parseStringArray1_clean (s : String)
    (h : ∀ c ∈ s.data, c ≠ '"' ∧ c ≠ '\\' ∧ 32 ≤ c.toNat) :
    parseStringArray1 ("[\"" ++ s ++ "\"]") = some s := by
  have hdata : ("[\"" ++ s ++ "\"]").data = '[' :: '"' :: (s.data ++ '"' :: [']']) := by
    simp [String.data_append]
  rw [parseStringArray1, hdata]
  rw [show skipWs ('[' :: '"' :: (s.data ++ ['"', ']'])) = '[' :: '"' :: (s.data ++ ['"', ']'])
      from by simp [skipWs, isJsonWs]]
  simp [skipWs, isJsonWs, parseJsonString_clean s.data [']'] h]
/-- Counterexample to claim C7: for the input consisting of one double-quote
character the body sent is the five-character text between brackets shown
below, which is not a well-formed JSON array with one string element (the
parse fails), so not every non-empty input yields a one-element string
array containing the input identifier. -/
theorem C7_counterexample :
    (set_zone_input "192.168.0.4" "u" "p" "z1" (some "\"")).request.data
      = .raw "[\"\"\"]" ∧
    '"' ∈ ("\"" : String).data ∧
    parseStringArray1 "[\"\"\"]" = none := by
  refine ⟨by decide, by decide, by decide⟩

/-- Claim C7 as amended: `set_zone_input` sends body "[]" when the input is
absent (None) or empty, and otherwise sends exactly the text obtained by
interpolating the input between a literal leading bracket-quote and
trailing quote-bracket; whenever the input contains no double-quote,
backslash or control character, that text is a well-formed JSON array with
exactly one string element, the input identifier. -/
theorem C7_set_zone_input_body_amended (ip u p zid : String) :
    (set_zone_input ip u p zid none).request.data = .raw "[]" ∧
    (set_zone_input ip u p zid (some "")).request.data = .raw "[]" ∧
    (∀ s : String, 0 < s.length →
      (set_zone_input ip u p zid (some s)).request.data
        = .raw ("[\"" ++ s ++ "\"]")) ∧
    (∀ s : String, (∀ c ∈ s.data, c ≠ '"' ∧ c ≠ '\\' ∧ 32 ≤ c.toNat) →
      parseStringArray1 ("[\"" ++ s ++ "\"]") = some s) := by
  refine ⟨rfl, rfl, fun s hs => ?_, fun s hc => parseStringArray1_clean s hc⟩
  simp [set_zone_input, hs]

/-- Witness of C7 as amended at the spec's example input "aux1". -/
theorem C7_witness :
    (set_zone_input "10.0.0.4" "u" "p" "z3" (some "aux1")).request.data
      = .raw "[\"aux1\"]" ∧
    parseStringArray1 "[\"aux1\"]" = some "aux1" :=
  ⟨(C7_set_zone_input_body_amended "10.0.0.4" "u" "p" "z3").2.2.1 "aux1" (by decide),
   (C7_set_zone_input_body_amended "10.0.0.4" "u" "p" "z3").2.2.2 "aux1" (by decide)⟩

/-- Counterexample to claim C9: the input consisting of two backslashes
contains a backslash, yet the body built for it is a well-formed
single-element JSON string array (the two backslashes coincidentally form
a valid escape), whose element denotes a single backslash, differing from
the input. -/
theorem C9_counterexample :
    (set_zone_input "192.168.0.4" "u" "p" "z1" (some "\\\\")).request.data
      = .raw "[\"\\\\\"]" ∧
    '\\' ∈ ("\\\\" : String).data ∧
    parseStringArray1 "[\"\\\\\"]" = some "\\" ∧
    ("\\" : String) ≠ "\\\\" := by
  refine ⟨by decide, by decide, by decide, by decide⟩

/-- Claim C9 as amended: for every non-empty input s the body is exactly
the verbatim interpolation of s between a literal bracket-quote and
quote-bracket with no escaping; inputs containing a double-quote or
backslash can therefore produce a body that is not a well-formed
single-element JSON string array (for a single backslash the parse fails),
though certain such inputs coincidentally form valid escapes and do parse,
with an element differing from the input (see the counterexample). -/
theorem C9_verbatim_amended :
    (∀ (ip u p zid s : String), 0 < s.length →
      (set_zone_input ip u p zid (some s)).request.data
        = .raw ("[\"" ++ s ++ "\"]")) ∧
    parseStringArray1 "[\"\\\"]" = none := by
  refine ⟨fun ip u p zid s hs => ?_, by decide⟩
  simp [set_zone_input, hs]

/-- Witness of C9 as amended at the one-character input "x". -/
theorem C9_witness :
    (set_zone_input "10.9.9.9" "u" "p" "z9" (some "x")).request.data
      = .raw "[\"x\"]" :=
  C9_verbatim_amended.1 "10.9.9.9" "u" "p" "z9" "x" (by decide)
/-- Claim C8: for every 200 response whose JSON body is an object containing
an "available_types" field, `get_available_inputs` returns exactly that
field's value, unwrapped from the enclosing object. -/
theorem C8_available_inputs_unwrap (ip u p iid : String)
    (fields : List (String × Json)) (v : Json) (tb : Except ClientError String)
    (h : fields.lookup "available_types" = some v) :
    (get_available_inputs ip u p iid).handle (.ok ⟨200, .ok (.obj fields), tb⟩)
      = .ok v := by
  simp [get_available_inputs, availableInputsHandle, pySubscriptStr, h]

/-- Witness of C8 at the body from the spec's example. -/
theorem C8_witness :
    (get_available_inputs "10.0.0.3" "u" "p" "in0").handle
        (.ok ⟨200, .ok (.obj [("available_types",
          .arr [.str "bluetooth", .str "optical"])]), .ok ""⟩)
      = .ok (.arr [.str "bluetooth", .str "optical"]) :=
  C8_available_inputs_unwrap "10.0.0.3" "u" "p" "in0"
    [("available_types", .arr [.str "bluetooth", .str "optical"])]
    (.arr [.str "bluetooth", .str "optical"]) (.ok "") rfl
